import Mathlib

/-!
Verification of the hiring-type classification engine and the resume-parser
scoring rubric of the resume-ai system.  The Python sources
(`app/services/hiring_detector.py`, `app/services/resume_parser.py`) are
shallowly embedded: strings are Lean `String`s, Python dicts of fixed shape
become structures, dicts used as ordered key/value tables become association
lists, and the two regex searches of the detector are embedded as explicit
left-to-right scanners with the same alternation order and backtracking
behaviour as Python `re.search` / `re.findall` on these concrete patterns.
ASCII case conversion models Python `str.lower` / `str.upper` on the ASCII
texts the detector manipulates.  The emoji prefixes of the label and insight
strings are reproduced by their intended glyphs (the source file stores them
as mojibake bytes); no claim depends on those prefix bytes.
-/

/-- ASCII lower-casing of one character, modelling Python `str.lower` on
ASCII input (`Char.toLower` lowers exactly the range A-Z). -/
def lowerChar (c : Char) : Char := c.toLower

/-- ASCII upper-casing of one character, modelling Python `str.upper`. -/
def upperChar (c : Char) : Char := c.toUpper

/-- Python `str.lower` over a whole string (ASCII model). -/
def pyLower (s : String) : String := ⟨s.data.map lowerChar⟩

/-- Python `str.upper` over a whole string (ASCII model). -/
def pyUpper (s : String) : String := ⟨s.data.map upperChar⟩

/-- Does `hay` start with `needle` (exact characters)? -/
def startsWithChars : List Char → List Char → Bool
  | _, [] => true
  | [], _ :: _ => false
  | h :: t, h2 :: t2 => h == h2 && startsWithChars t t2

/-- Worker for `pyReplace`: left-to-right, non-overlapping replacement of
`pat` by `rep`.  The `fuel` argument (initially the text length) makes the
recursion structural; each step consumes at least one character. -/
def replaceAux : Nat → List Char → List Char → List Char → List Char
  | 0, hay, _, _ => hay
  | _ + 1, [], _, _ => []
  | fuel + 1, c :: t, pat, rep =>
    if startsWithChars (c :: t) pat && !pat.isEmpty then
      rep ++ replaceAux fuel (t.drop (pat.length - 1)) pat rep
    else c :: replaceAux fuel t pat rep

/-- Python `str.replace` for a non-empty pattern (the classifier only uses
pattern "Z"): every non-overlapping occurrence, scanned left to right, is
replaced. -/
def pyReplace (s pat rep : String) : String :=
  ⟨replaceAux s.data.length s.data pat.data rep.data⟩

/-- Python substring containment `needle in hay` (exact characters):
true iff `needle` occurs contiguously somewhere in `hay`. -/
def containsSub : List Char → List Char → Bool
  | [], needle => needle.isEmpty
  | hay@(_ :: t), needle => startsWithChars hay needle || containsSub t needle

/-- Python `keyword in text` on strings. -/
def strIn (needle hay : String) : Bool := containsSub hay.data needle.data

/-- `startsWithChars` holds exactly when the needle is a prefix. -/
theorem startsWithChars_iff (hay needle : List Char) :
    startsWithChars hay needle = true ↔ ∃ rest, hay = needle ++ rest := by
  induction needle generalizing hay with
  | nil => simp [startsWithChars]
  | cons n nt ih =>
    cases hay with
    | nil => simp [startsWithChars]
    | cons h ht =>
      simp only [startsWithChars, Bool.and_eq_true, beq_iff_eq, ih]
      constructor
      · rintro ⟨rfl, rest, rfl⟩
        exact ⟨rest, rfl⟩
      · rintro ⟨rest, hEq⟩
        simp only [List.cons_append, List.cons.injEq] at hEq
        exact ⟨hEq.1, rest, hEq.2⟩

/-- `containsSub` holds exactly when the needle occurs contiguously. -/
theorem containsSub_iff (hay needle : List Char) :
    containsSub hay needle = true ↔ ∃ p s, hay = p ++ needle ++ s := by
  induction hay with
  | nil =>
    simp only [containsSub, List.isEmpty_iff]
    constructor
    · rintro rfl; exact ⟨[], [], rfl⟩
    · rintro ⟨p, s, hEq⟩
      rcases List.append_eq_nil.mp (List.append_eq_nil.mp hEq.symm).1 with ⟨_, h2⟩
      exact h2
  | cons h t ih =>
    simp only [containsSub, Bool.or_eq_true, startsWithChars_iff, ih]
    constructor
    · rintro (⟨rest, hEq⟩ | ⟨p, s, rfl⟩)
      · exact ⟨[], rest, by simpa using hEq⟩
      · exact ⟨h :: p, s, rfl⟩
    · rintro ⟨p, s, hEq⟩
      cases p with
      | nil => exact Or.inl ⟨s, by simpa using hEq⟩
      | cons p0 pt =>
        simp only [List.cons_append, List.cons.injEq] at hEq
        exact Or.inr ⟨pt, s, hEq.2⟩

namespace HiringDetector

/-- `self.active_indicators` (hiring_detector.py, constructor). -/
def active_indicators : List (String × List String) :=
  [ ("urgency",
      ["urgent hiring", "urgently hiring", "immediate start",
       "immediate availability", "asap", "quick start",
       "fast-paced hiring", "rapid hiring", "hiring immediately"]),
    ("specificity",
      ["reporting to", "reporting directly to", "join our team of",
       "backfill", "new team member", "specific role",
       "funded position", "approved headcount", "open position"]),
    ("timeline",
      ["start date", "expected start", "target start",
       "hiring timeline", "interview schedule", "onboarding"]),
    ("vacancy",
      ["open role", "vacancy", "opening", "position available",
       "now hiring", "accepting applications", "apply now"]) ]

/-- `self.passive_indicators` (hiring_detector.py, constructor). -/
def passive_indicators : List (String × List String) :=
  [ ("evergreen",
      ["ongoing need", "continuous recruitment", "always hiring",
       "evergreen", "rolling basis", "continuous hiring",
       "year-round recruitment"]),
    ("pipeline",
      ["future opportunities", "talent pool", "talent pipeline",
       "talent community", "career opportunities", "join our database",
       "future openings", "potential opportunities"]),
    ("general",
      ["general interest", "open application", "speculative application",
       "expression of interest", "submit your resume",
       "keep you in mind", "future consideration"]),
    ("vague",
      ["various positions", "multiple roles", "several opportunities",
       "range of positions", "diverse opportunities"]) ]

/-- `self.red_flags` (hiring_detector.py, constructor). -/
def red_flags : List (String × List String) :=
  [ ("location_blast",
      ["multiple locations", "various locations", "nationwide",
       "all locations", "remote - us", "remote - global"]),
    ("generic_contact",
      ["email resume to", "send resume to", "forward cv to",
       "jobs@", "careers@", "hr@", "recruiting@"]),
    ("vague_benefits",
      ["competitive salary", "competitive compensation",
       "market rate", "commensurate with experience",
       "to be discussed", "tbd", "negotiable"]),
    ("no_team_info",
      ["growing company", "dynamic team", "talented team",
       "innovative company"]) ]

/-- `sum(1 for keyword in keywords if keyword in text_lower)`
(hiring_detector.py line 208). -/
def keywordHits (text_lower : String) (keywords : List String) : Nat :=
  (keywords.map (fun keyword => if strIn keyword text_lower then 1 else 0)).sum

/-- `count_indicators` (hiring_detector.py lines 202-211): for each category
of the table, the number of its keywords occurring as substrings of the
lower-cased text. -/
def count_indicators (text : String) (indicators : List (String × List String)) :
    List (String × Nat) :=
  indicators.map (fun p => (p.1, keywordHits (pyLower text) p.2))

/-- Sum of the per-category counts, `sum(matches.values())`. -/
def sumCounts (ms : List (String × Nat)) : Nat := (ms.map Prod.snd).sum

/-- Case-insensitive prefix match of an ASCII literal (models matching a
regex literal under `re.IGNORECASE`). -/
def startsWithCI : List Char → List Char → Bool
  | _, [] => true
  | [], _ :: _ => false
  | h :: t, h2 :: t2 => lowerChar h == lowerChar h2 && startsWithCI t t2

/-- Python regex `\s` on ASCII. -/
def isSpaceChar (c : Char) : Bool :=
  c == ' ' || c == '\t' || c == '\n' || c == '\r' || c == '\x0b' || c == '\x0c'

/-- Greedy `\s*`. -/
def dropSpaces : List Char → List Char
  | [] => []
  | c :: t => if isSpaceChar c then dropSpaces t else c :: t

/-- One character of the capture class `[A-Z0-9_-]` under `re.IGNORECASE`
(ASCII letters of either case, digits, underscore, hyphen). -/
def isIdChar (c : Char) : Bool := c.isAlpha || c.isDigit || c == '_' || c == '-'

/-- First successful alternative, in order (regex alternation). -/
def firstSome {α : Type} : List (Option α) → Option α
  | [] => none
  | some x :: _ => some x
  | none :: rest => firstSome rest

/-- Match `\s*:?\s*([A-Z0-9_-]+)` at the head of `cs`, returning the capture.
The optional colon is tried consumed first; if the capture then fails the
regex engine backtracks to the empty option (where the capture fails too,
since the head is the colon, which is not in the class). -/
def matchTail (cs : List Char) : Option (List Char) :=
  let cs1 := dropSpaces cs
  match cs1 with
  | ':' :: rest =>
    let run := (dropSpaces rest).takeWhile isIdChar
    if run.isEmpty then
      let run2 := cs1.takeWhile isIdChar
      if run2.isEmpty then none else some run2
    else some run
  | _ =>
    let run := cs1.takeWhile isIdChar
    if run.isEmpty then none else some run

/-- Match `\s*(?:alt1|alt2|...)?\s*:?\s*([A-Z0-9_-]+)` at the head of `cs`:
the optional group's alternatives are tried in order, each followed by the
tail; on failure of all, the group matches empty (regex backtracking). -/
def matchOptThenTail (alts : List String) (cs : List Char) : Option (List Char) :=
  let cs1 := dropSpaces cs
  let viaAlt := firstSome (alts.map (fun a =>
    if startsWithCI cs1 a.data then matchTail (cs1.drop a.length) else none))
  match viaAlt with
  | some r => some r
  | none => matchTail cs1

/-- Anchored attempt of pattern 1 of `extract_requisition_id`
(`(?:req|requisition|job)\s*(?:id|#|number)?\s*:?\s*([A-Z0-9_-]+)`,
IGNORECASE) at the head of `cs`. -/
def matchPat1At (cs : List Char) : Option (List Char) :=
  firstSome (["req", "requisition", "job"].map (fun kw =>
    if startsWithCI cs kw.data then
      matchOptThenTail ["id", "#", "number"] (cs.drop kw.length)
    else none))

/-- Anchored attempt of pattern 2
(`(?:reference|ref)\s*(?:number|#)?\s*:?\s*([A-Z0-9_-]+)`, IGNORECASE). -/
def matchPat2At (cs : List Char) : Option (List Char) :=
  firstSome (["reference", "ref"].map (fun kw =>
    if startsWithCI cs kw.data then
      matchOptThenTail ["number", "#"] (cs.drop kw.length)
    else none))

/-- `re.search`: leftmost position whose anchored attempt succeeds. -/
def searchAt (f : List Char → Option (List Char)) : List Char → Option (List Char)
  | [] => f []
  | c :: t =>
    match f (c :: t) with
    | some r => some r
    | none => searchAt f t

/-- `extract_requisition_id` (hiring_detector.py lines 79-97): the two
patterns are tried in order over the whole text; the first pattern that
matches anywhere wins, and within a pattern the leftmost match wins. -/
def extract_requisition_id (text : String) : Option String :=
  match searchAt matchPat1At text.data with
  | some r => some ⟨r⟩
  | none =>
    match searchAt matchPat2At text.data with
    | some r => some ⟨r⟩
    | none => none

/-- Result record of `analyze_req_id`. -/
structure ReqAnalysis where
  has_req_id : Bool
  req_id : Option String
  is_suspicious : Bool
  reason : String
deriving Repr, DecidableEq

/-- The `not req_id` branch of `analyze_req_id` (lines 106-111). -/
def noReqIdResult : ReqAnalysis :=
  { has_req_id := false, req_id := none, is_suspicious := true,
    reason := "No requisition ID found - possible unstructured posting" }

/-- `evergreen_terms` (line 116). -/
def evergreen_terms : List String :=
  ["EVERGREEN", "GENERIC", "POOL", "PIPELINE", "GENERAL"]

/-- Python `str.isalnum` (ASCII model): nonempty and all alphanumeric. -/
def pyIsAlnum (s : String) : Bool := !s.isEmpty && s.data.all Char.isAlphanum

/-- `analyze_req_id` (hiring_detector.py lines 99-140).  Python `not req_id`
is true for both `None` and the empty string. -/
def analyze_req_id (req_id : Option String) : ReqAnalysis :=
  match req_id with
  | none => noReqIdResult
  | some rid =>
    if rid.isEmpty then noReqIdResult
    else
      let req_id_upper := pyUpper rid
      if evergreen_terms.any (fun term => strIn term req_id_upper) then
        { has_req_id := true, req_id := some rid, is_suspicious := true,
          reason := s!"Requisition ID \x27{rid}\x27 contains evergreen/generic terms" }
      else if rid.length ≤ 4 ∧ pyIsAlnum rid then
        { has_req_id := true, req_id := some rid, is_suspicious := true,
          reason := s!"Suspiciously simple req ID: \x27{rid}\x27" }
      else
        { has_req_id := true, req_id := some rid, is_suspicious := false,
          reason := "Specific requisition ID suggests real opening" }

/-- Python dict lookup `self.red_flags[key]` over the association list. -/
def lookupTable (tbl : List (String × List String)) (k : String) : List String :=
  match tbl.find? (fun p => p.1 == k) with
  | some p => p.2
  | none => []

/-- The fixed city list of the `cities_pattern` regex (line 153), in
alternation order. -/
def cities : List String :=
  ["New York", "Los Angeles", "Chicago", "Houston", "Phoenix", "Philadelphia",
   "San Antonio", "San Diego", "Dallas", "San Jose", "Austin", "Jacksonville",
   "Fort Worth", "Columbus", "Charlotte", "San Francisco", "Indianapolis",
   "Seattle", "Denver", "Washington", "Boston", "El Paso", "Nashville",
   "Detroit", "Oklahoma City", "Portland", "Las Vegas", "Memphis",
   "Louisville", "Baltimore", "Milwaukee", "Albuquerque", "Tucson", "Fresno",
   "Mesa", "Sacramento", "Atlanta", "Kansas City", "Colorado Springs",
   "Omaha", "Raleigh", "Miami", "Long Beach", "Virginia Beach", "Oakland",
   "Minneapolis", "Tulsa", "Tampa", "Arlington", "New Orleans"]

/-- Python regex `\w` (ASCII model). -/
def isWordChar (c : Char) : Bool := c.isAlphanum || c == '_'

/-- Anchored attempt of the city alternation with its trailing `\b`;
alternatives tried in pattern order; returns the match length.  The leading
`\b` is checked by the scanner. -/
def cityAt (cs : List Char) : Option Nat :=
  firstSome (cities.map (fun city =>
    if startsWithChars cs city.data then
      match cs.drop city.length with
      | [] => some city.length
      | c :: _ => if isWordChar c then none else some city.length
    else none))

/-- `re.findall` scan for the city pattern: left to right, non-overlapping;
`prevWord` tracks whether the previous character was a word character (for
the leading `\b`).  After a match the scan resumes at its end, with the flag
recomputed from the last matched character.  The `fuel` argument makes the
recursion structural (hence kernel-evaluable); every step consumes at least
one character and one unit of fuel, so `fuel = length` never runs out. -/
def countCitiesAux : Nat → List Char → Bool → Nat
  | 0, _, _ => 0
  | _ + 1, [], _ => 0
  | fuel + 1, c :: t, prevWord =>
    if prevWord then countCitiesAux fuel t (isWordChar c)
    else
      match cityAt (c :: t) with
      | some len =>
        let lastWord :=
          match ((c :: t).take len).getLast? with
          | some lc => isWordChar lc
          | none => prevWord
        1 + countCitiesAux fuel (t.drop (len - 1)) lastWord
      | none => countCitiesAux fuel t (isWordChar c)

/-- `len(re.findall(cities_pattern, text))` — case-sensitive, duplicates
counted. -/
def countCities (text : String) : Nat :=
  countCitiesAux text.data.length text.data false

/-- Result record of `detect_location_blast`. -/
structure LocationAnalysis where
  is_location_blast : Bool
  cities_mentioned : Nat
  blast_keywords : Nat
  reason : String
deriving Repr, DecidableEq

/-- `detect_location_blast` (hiring_detector.py lines 142-163). -/
def detect_location_blast (text : String) : LocationAnalysis :=
  let location_count := keywordHits (pyLower text) (lookupTable red_flags "location_blast")
  let cities_found := countCities text
  let is_blast := decide (0 < location_count ∨ 5 ≤ cities_found)
  { is_location_blast := is_blast,
    cities_mentioned := cities_found,
    blast_keywords := location_count,
    reason :=
      if is_blast then
        s!"Found {cities_found} cities and {location_count} multi-location keywords"
      else "Normal location specificity" }

/-- Result record of `analyze_specificity`. -/
structure SpecificityAnalysis where
  specificity_score : Nat
  details_found : List String
  is_specific : Bool
  reason : String
deriving Repr, DecidableEq

/-- Is the head of the list a `\w` character (needed for `\w+`)? -/
def firstIsWord : List Char → Bool
  | [] => false
  | c :: _ => isWordChar c

/-- Anchored attempt of `reporting to \w+|reports to \w+` (IGNORECASE). -/
def reportingAt (cs : List Char) : Bool :=
  (startsWithCI cs "reporting to ".data && firstIsWord (cs.drop 13)) ||
  (startsWithCI cs "reports to ".data && firstIsWord (cs.drop 11))

/-- Existence-only `re.search` for a boolean anchored matcher. -/
def searchBool (p : List Char → Bool) : List Char → Bool
  | [] => p []
  | c :: t => p (c :: t) || searchBool p t

/-- `departments` (line 179). -/
def departments : List String :=
  ["engineering", "marketing", "sales", "operations", "product", "design",
   "data", "finance"]

/-- Anchored attempt of `\$[\d,]+`. -/
def dollarAt : List Char → Bool
  | '$' :: c :: _ => c.isDigit || c == ','
  | _ => false

/-- Anchored attempt of `\d+k-\d+k` (IGNORECASE).  The `\d+` runs are
maximal-munch; no backtracking is possible since `k` is not a digit. -/
def kRangeAt (cs : List Char) : Bool :=
  let ds := cs.takeWhile Char.isDigit
  if ds.isEmpty then false
  else
    match cs.drop ds.length with
    | k1 :: '-' :: rest2 =>
      lowerChar k1 == 'k' &&
        (let ds2 := rest2.takeWhile Char.isDigit
         !ds2.isEmpty &&
           (match rest2.drop ds2.length with
            | k2 :: _ => lowerChar k2 == 'k'
            | [] => false))
    | _ => false

/-- `analyze_specificity` (hiring_detector.py lines 165-200).  The four
rules fire independently; the regex searches for project details and
compensation are pure existence tests, so alternation order is immaterial
and IGNORECASE literal search equals lower-cased substring search. -/
def analyze_specificity (text : String) : SpecificityAnalysis :=
  let text_lower := pyLower text
  let hasManager := searchBool reportingAt text.data
  let dept_mentions :=
    (departments.map (fun dept => if strIn dept text_lower then 1 else 0)).sum
  let hasProject :=
    ["working on", "project", "tech stack", "tools we use"].any
      (fun k => strIn k text_lower)
  let hasComp :=
    searchBool dollarAt text.data || strIn "salary range" text_lower ||
      strIn "pay range" text_lower || searchBool kRangeAt text.data
  let specificity_score :=
    (if hasManager then 2 else 0) + (if 2 ≤ dept_mentions then 1 else 0) +
      (if hasProject then 1 else 0) + (if hasComp then 2 else 0)
  let details_found :=
    (if hasManager then ["Specific manager mentioned"] else []) ++
    (if 2 ≤ dept_mentions then [s!"{dept_mentions} specific departments"] else []) ++
    (if hasProject then ["Project/tech details mentioned"] else []) ++
    (if hasComp then ["Specific compensation mentioned"] else [])
  { specificity_score := specificity_score,
    details_found := details_found,
    is_specific := decide (3 ≤ specificity_score),
    reason :=
      if 3 ≤ specificity_score then "High specificity suggests active hiring"
      else "Low specificity suggests generic pipeline" }

/-- A parsed calendar date (Python `datetime.date` part). -/
structure PyDate where
  year : Nat
  month : Nat
  day : Nat
deriving Repr, DecidableEq

/-- Gregorian leap-year rule. -/
def isLeapYear (y : Nat) : Bool := (y % 4 == 0 && y % 100 != 0) || y % 400 == 0

/-- Days in a month of a given year. -/
def daysInMonth (y m : Nat) : Nat :=
  if m == 2 then (if isLeapYear y then 29 else 28)
  else if m == 4 || m == 6 || m == 9 || m == 11 then 30
  else 31

/-- Numeric value of a digit character. -/
def digitVal (c : Char) : Nat := c.toNat - '0'.toNat

/-- Modelled from the spec: the classifier calls the standard-library parser
`datetime.fromisoformat`, which is not part of the source tree; per the spec
it must `parse as an ISO-8601 date` with failure swallowed by the caller.
This model accepts exactly the date-only `YYYY-MM-DD` shape denoting a valid
proleptic-Gregorian date with year 1-9999, and returns `none` on any other
input (the fallible parse that the spec asks for, instead of an exception). -/
def fromisoformat (s : String) : Option PyDate :=
  match s.data with
  | [y1, y2, y3, y4, '-', m1, m2, '-', d1, d2] =>
    if [y1, y2, y3, y4, m1, m2, d1, d2].all Char.isDigit then
      let y := 1000 * digitVal y1 + 100 * digitVal y2 + 10 * digitVal y3 + digitVal y4
      let m := 10 * digitVal m1 + digitVal m2
      let d := 10 * digitVal d1 + digitVal d2
      if 1 ≤ y ∧ 1 ≤ m ∧ m ≤ 12 ∧ 1 ≤ d ∧ d ≤ daysInMonth y m then
        some ⟨y, m, d⟩
      else none
    else none
  | _ => none

/-- Cumulative day counts before each month (non-leap). -/
def daysBeforeMonth (m : Nat) : Nat :=
  [0, 0, 31, 59, 90, 120, 151, 181, 212, 243, 273, 304, 334].getD m 0

/-- Proleptic-Gregorian day number (Python `date.toordinal`: 0001-01-01 is
day 1).  Whole-day subtraction of two dates at this granularity equals
Python `(datetime.now() - post_date).days` for a date-only `post_date`. -/
def toOrdinal (d : PyDate) : Nat :=
  let py := d.year - 1
  365 * py + py / 4 + py / 400 + daysBeforeMonth d.month +
    (if 2 < d.month ∧ isLeapYear d.year then 1 else 0) + d.day - py / 100

/-- The aggregate result record of `analyze_hiring_type` (return dict,
lines 354-379). -/
structure HiringAnalysis where
  hiring_type : String
  confidence : String
  explanation : String
  active_score : Nat
  passive_score : Nat
  red_flag_score : Nat
  active_indicators : List (String × Nat)
  passive_indicators : List (String × Nat)
  red_flags : List (String × Nat)
  requisition_analysis : ReqAnalysis
  location_analysis : LocationAnalysis
  specificity_analysis : SpecificityAnalysis
  posting_age_days : Option Int
  is_stale : Bool
  insights : List String
  application_strategy : List String
deriving Repr, DecidableEq

/-- Label strings (lines 272/280/288; the source file stores the emoji
prefixes as mojibake bytes, reproduced here by their intended glyphs). -/
def activeLabel : String := "🟢 Active Hiring"

/-- Pipeline label string. -/
def passiveLabel : String := "🟡 Pipeline/Evergreen"

/-- Mixed label string. -/
def mixedLabel : String := "⚪ Mixed Signals"

/-- Fixed explanation for the active label (lines 274-278). -/
def activeExplanation : String :=
  "This is a real, funded position with an immediate hiring need. " ++
  "The company is actively screening candidates now and likely has a " ++
  "specific vacancy to fill. Expect a structured process with faster response times."

/-- Fixed explanation for the pipeline label (lines 282-286). -/
def passiveExplanation : String :=
  "This appears to be a talent pipeline or \x27evergreen\x27 requisition. " ++
  "The company is collecting resumes for future opportunities rather than " ++
  "filling an immediate vacancy. Response times may be slow or nonexistent."

/-- Fixed explanation for the mixed label (lines 290-293). -/
def mixedExplanation : String :=
  "This posting shows conflicting indicators. It may be a legitimate role " ++
  "with poor job description quality, or a semi-active pipeline."

/-- Fixed strategy list for the active label (lines 331-337). -/
def activeStrategy : List String :=
  ["✅ Apply quickly - this is a time-sensitive opportunity",
   "📝 Tailor resume to exact requirements in posting",
   "⚡ Expect standard interview process with defined timeline",
   "👥 Competition is high - differentiate yourself clearly",
   "📞 Follow up within 1 week if no response"]

/-- Fixed strategy list for the pipeline label (lines 339-345). -/
def passiveStrategy : List String :=
  ["⏳ Set expectations for slow/no response",
   "🤝 Try to network with employees instead of just applying",
   "🔍 Look for actual active roles at this company",
   "📧 Consider reaching out directly to hiring managers",
   "💡 This may be resume harvesting - apply selectively"]

/-- Fixed strategy list for the mixed label (lines 347-352). -/
def mixedStrategy : List String :=
  ["🔍 Research company\x27s careers page directly",
   "📞 Call/email recruiter to verify if role is active",
   "🎯 Prepare for both structured and exploratory interviews",
   "⚖️ Weigh time investment carefully"]

/-- Python `max(items, key=lambda x: x[1])`: the first pair with maximal
second component (strict comparison in the fold keeps the earliest). -/
def maxBySnd : List (String × Nat) → (String × Nat)
  | [] => ("", 0)
  | x :: xs => xs.foldl (fun acc y => if acc.2 < y.2 then y else acc) x

/-- The active-signal count insight line (line 300). -/
def activeCountLine (n : Nat) : String :=
  s!"✅ {n} active hiring signals detected"

/-- The passive-signal count insight line (line 307). -/
def passiveCountLine (n : Nat) : String :=
  s!"⚠️ {n} pipeline/evergreen signals detected"

/-- The red-flag count insight line (line 314). -/
def redFlagCountLine (n : Nat) : String :=
  s!"🚩 {n} resume harvesting red flags"

/-- The `Strongest:` insight line (lines 303/310). -/
def strongestLine (p : String × Nat) : String :=
  let c := p.1
  let n := p.2
  s!"   → Strongest: {c} ({n} mentions)"

/-- A structural-issue insight line (lines 318/321): a flag prefix followed
by the reported reason. -/
def flagLine (r : String) : String :=
  s!"🚩 {r}"

/-- The low-specificity warning line (line 324). -/
def lowSpecificityLine : String :=
  "⚠️ Low specificity - vague job description"

/-- The staleness insight line (line 327). -/
def staleInsight (age : Int) : String :=
  s!"🚩 Posting is {age} days old (likely stale)"

/-- `analyze_hiring_type` (hiring_detector.py lines 213-379).  `datetime.now()`
is modelled by the `todayOrdinal` parameter (the current date's proleptic
ordinal); the 1.5-ratio float comparisons `a > b * 1.5` are embedded as the
exact integer comparisons `2*a > 3*b`, which agree with the double-precision
evaluation for all scores below 2^52.  The `try/except` around date parsing
is the `none` branch of `fromisoformat`. -/
def analyze_hiring_type (job_description : String) (posted_date : Option String)
    (todayOrdinal : Nat) : HiringAnalysis :=
  let active_matches := count_indicators job_description active_indicators
  let passive_matches := count_indicators job_description passive_indicators
  let red_flag_matches := count_indicators job_description red_flags
  let active_score := sumCounts active_matches
  let passive_score := sumCounts passive_matches
  let red_flag_score := sumCounts red_flag_matches
  let req_id_analysis := analyze_req_id (extract_requisition_id job_description)
  let location_analysis := detect_location_blast job_description
  let specificity_analysis := analyze_specificity job_description
  let ageFields : Option Int × Bool :=
    match posted_date with
    | none => (none, false)
    | some s =>
      if s.isEmpty then (none, false)
      else
        match fromisoformat (pyReplace s "Z" "+00:00") with
        | none => (none, false)
        | some dt =>
          let age : Int := (todayOrdinal : Int) - (toOrdinal dt : Int)
          (some age, decide (45 < age))
  let posting_age_days := ageFields.1
  let is_stale := ageFields.2
  let final_active_score :=
    active_score * 2 + (if specificity_analysis.is_specific then 3 else 0) +
      (if !req_id_analysis.is_suspicious then 2 else 0)
  let final_passive_score :=
    passive_score * 2 + (if req_id_analysis.is_suspicious then 3 else 0) +
      (if location_analysis.is_location_blast then 3 else 0) + red_flag_score +
      (if is_stale then 2 else 0)
  let labelled : String × String × String :=
    if 3 * final_passive_score < 2 * final_active_score then
      (activeLabel, if 8 ≤ final_active_score then "High" else "Medium",
       activeExplanation)
    else if 3 * final_active_score < 2 * final_passive_score then
      (passiveLabel, if 8 ≤ final_passive_score then "High" else "Medium",
       passiveExplanation)
    else (mixedLabel, "Low", mixedExplanation)
  let hiring_type := labelled.1
  let confidence := labelled.2.1
  let explanation := labelled.2.2
  let insights :=
    (if 0 < active_score then
      [activeCountLine active_score] ++
        (let top_active := maxBySnd active_matches
         if 0 < top_active.2 then [strongestLine top_active] else [])
     else []) ++
    (if 0 < passive_score then
      [passiveCountLine passive_score] ++
        (let top_passive := maxBySnd passive_matches
         if 0 < top_passive.2 then [strongestLine top_passive] else [])
     else []) ++
    (if 0 < red_flag_score then
      [redFlagCountLine red_flag_score] else []) ++
    (if req_id_analysis.is_suspicious then
      [flagLine req_id_analysis.reason] else []) ++
    (if location_analysis.is_location_blast then
      [flagLine location_analysis.reason] else []) ++
    (if !specificity_analysis.is_specific then
      [lowSpecificityLine] else []) ++
    (if is_stale then [staleInsight (posting_age_days.getD 0)] else [])
  let application_strategy :=
    if hiring_type == activeLabel then activeStrategy
    else if hiring_type == passiveLabel then passiveStrategy
    else mixedStrategy
  { hiring_type := hiring_type,
    confidence := confidence,
    explanation := explanation,
    active_score := final_active_score,
    passive_score := final_passive_score,
    red_flag_score := red_flag_score,
    active_indicators := active_matches,
    passive_indicators := passive_matches,
    red_flags := red_flag_matches,
    requisition_analysis := req_id_analysis,
    location_analysis := location_analysis,
    specificity_analysis := specificity_analysis,
    posting_age_days := posting_age_days,
    is_stale := is_stale,
    insights := insights,
    application_strategy := application_strategy }

end HiringDetector

namespace ResumeParser

/-- The parsed-resume fields consumed by the scoring rubric
(`parsed_data` built in resume_parser.py `parse_resume`, lines 222-229;
education entries are (degree, context) pairs). -/
structure ParsedData where
  raw_text : String
  email : Option String
  phone : Option String
  skills : List String
  education : List (String × String)
deriving Repr, DecidableEq

/-- Python truthiness of an optional string field
(`parsed_data.get('email')` is falsy for missing, None, and ""). -/
def truthy : Option String → Bool
  | none => false
  | some s => !s.isEmpty

/-- `experience_keywords` (resume_parser.py line 150). -/
def experience_keywords : List String :=
  ["experience", "worked", "developed", "managed", "led", "designed"]

/-- `sum(1 for keyword in experience_keywords if keyword in text_lower)`
(line 151). -/
def foundKeywords (text_lower : String) : Nat :=
  (experience_keywords.map (fun k => if strIn k text_lower then 1 else 0)).sum

/-- `calculate_ats_score` (resume_parser.py lines 109-160); the float
arithmetic is integral throughout, so the score is embedded in `Nat`. -/
def calculate_ats_score (pd : ParsedData) : Nat :=
  let score := 0
  let score := if truthy pd.email then score + 10 else score
  let score := if truthy pd.phone then score + 10 else score
  let score :=
    if 8 ≤ pd.skills.length then score + 30
    else if 5 ≤ pd.skills.length then score + 20
    else if 3 ≤ pd.skills.length then score + 10
    else score
  let score := if 0 < pd.education.length then score + 20 else score
  let found_keywords := foundKeywords (pyLower pd.raw_text)
  let score :=
    if 4 ≤ found_keywords then score + 30
    else if 2 ≤ found_keywords then score + 20
    else if 1 ≤ found_keywords then score + 10
    else score
  min score 100

/-- `generate_suggestions` (resume_parser.py lines 162-200): conditional
appends in source order, embedded as concatenation of conditional
singletons. -/
def generate_suggestions (pd : ParsedData) (ats_score : Nat) : List String :=
  (if ats_score < 70 then
    (if !truthy pd.email then
      ["⚠️ Add a professional email address in the contact section"] else []) ++
    (if !truthy pd.phone then
      ["⚠️ Include a phone number for contact purposes"] else []) ++
    (let skills_count := pd.skills.length
     if skills_count < 5 then
      [s!"💡 Add more relevant skills (currently {skills_count}, aim for 8-12)"]
     else []) ++
    (if pd.education.length = 0 then
      ["📚 Include your education background"] else []) ++
    (let text := pyLower pd.raw_text
     if !strIn "experience" text && !strIn "worked" text then
      ["💼 Add work experience with action verbs (developed, led, managed)"]
     else [])
   else []) ++
  (if 70 ≤ ats_score ∧ ats_score < 85 then
    ["✅ Good score! Consider adding more quantifiable achievements",
     "💡 Use industry-specific keywords from job descriptions"]
   else []) ++
  (if 85 ≤ ats_score then
    ["🎉 Excellent ATS score! Your resume is well-optimized"] else [])

end ResumeParser

namespace HiringDetector

/-- Counting by summed indicator variables equals `countP`. -/
theorem sum_map_ite_eq_countP {α : Type} (l : List α) (q : α → Bool) :
    (l.map (fun k => if q k then 1 else 0)).sum = l.countP q := by
  induction l with
  | nil => rfl
  | cons a t ih =>
    simp only [List.map_cons, List.sum_cons, List.countP_cons, ih]
    by_cases h : q a = true
    · simp [h]
      omega
    · simp [h]

/-- C7: for every text and every indicator table, `count_indicators` returns
the table's categories in order (zero-hit ones included), each mapped to the
number of its keywords occurring as substrings of the lower-cased text
(`containsSub` being exactly contiguous occurrence); on the empty text each
of the three tables yields its all-zero map. -/
theorem count_indicators_spec :
    ∀ (text : String) (tbl : List (String × List String)),
      count_indicators text tbl =
        tbl.map (fun p =>
          (p.1, p.2.countP (fun k => containsSub (pyLower text).data k.data))) ∧
      (∀ hay needle : List Char,
        containsSub hay needle = true ↔ ∃ p s, hay = p ++ needle ++ s) ∧
      count_indicators "" active_indicators =
        [("urgency", 0), ("specificity", 0), ("timeline", 0), ("vacancy", 0)] ∧
      count_indicators "" passive_indicators =
        [("evergreen", 0), ("pipeline", 0), ("general", 0), ("vague", 0)] ∧
      count_indicators "" red_flags =
        [("location_blast", 0), ("generic_contact", 0), ("vague_benefits", 0),
         ("no_team_info", 0)] := by
  intro text tbl
  refine ⟨?_, containsSub_iff, by decide, by decide, by decide⟩
  simp only [count_indicators, keywordHits, strIn, sum_map_ite_eq_countP]

/-- C3: `analyze_req_id` chooses exactly one reason by ordered checks: no ID
(or the falsy empty string) is suspicious with the no-requisition-ID reason;
otherwise an uppercased ID containing an evergreen term is suspicious with
the evergreen/generic reason (taking priority over the length check);
otherwise length ≤ 4 and alphanumeric is suspicious with the overly-simple
reason; otherwise not suspicious.  The three concrete IDs of the spec behave
as stated. -/
theorem req_id_rules :
    ∀ rid : String, rid.isEmpty = false →
      (analyze_req_id (some rid)).has_req_id = true ∧
      (evergreen_terms.any (fun term => strIn term (pyUpper rid)) = true →
        (analyze_req_id (some rid)).is_suspicious = true ∧
        (analyze_req_id (some rid)).reason =
          s!"Requisition ID \x27{rid}\x27 contains evergreen/generic terms") ∧
      (evergreen_terms.any (fun term => strIn term (pyUpper rid)) = false →
        rid.length ≤ 4 → pyIsAlnum rid = true →
        (analyze_req_id (some rid)).is_suspicious = true ∧
        (analyze_req_id (some rid)).reason =
          s!"Suspiciously simple req ID: \x27{rid}\x27") ∧
      (evergreen_terms.any (fun term => strIn term (pyUpper rid)) = false →
        ¬(rid.length ≤ 4 ∧ pyIsAlnum rid = true) →
        (analyze_req_id (some rid)).is_suspicious = false ∧
        (analyze_req_id (some rid)).reason =
          "Specific requisition ID suggests real opening") ∧
      (analyze_req_id none).has_req_id = false ∧
      (analyze_req_id none).is_suspicious = true ∧
      (analyze_req_id none).reason =
        "No requisition ID found - possible unstructured posting" ∧
      (analyze_req_id (some "REQ-2024-ML-1847")).is_suspicious = false ∧
      (analyze_req_id (some "EVERGREEN_ENG_2024")).is_suspicious = true ∧
      (analyze_req_id (some "EVERGREEN_ENG_2024")).reason =
        "Requisition ID \x27EVERGREEN_ENG_2024\x27 contains evergreen/generic terms" ∧
      (analyze_req_id (some "A1")).is_suspicious = true ∧
      (analyze_req_id (some "A1")).reason =
        "Suspiciously simple req ID: \x27A1\x27" := by
  intro rid hne
  simp only [analyze_req_id, hne, Bool.false_eq_true, if_false]
  refine ⟨?_, ?_, ?_, ?_, rfl, rfl, rfl, by decide, by decide, by decide,
    by decide, by decide⟩
  · split <;> [skip; split] <;> rfl
  · intro hev
    simp [hev]
  · intro hev hlen haln
    simp [hev, hlen, haln]
  · intro hev hnot
    simp only [hev, Bool.false_eq_true, if_false]
    rw [if_neg]
    · exact ⟨rfl, rfl⟩
    · exact hnot

/-- C4: `detect_location_blast` reports a blast exactly when a blast keyword
is present or at least five city occurrences are found; a text with five
listed cities and no blast keyword is a blast with `blast_keywords = 0`, and
a single blast keyword suffices with zero cities. -/
theorem location_blast_rule :
    ∀ text : String,
      (detect_location_blast text).is_location_blast =
        decide (0 < (detect_location_blast text).blast_keywords ∨
          5 ≤ (detect_location_blast text).cities_mentioned) ∧
      (detect_location_blast text).blast_keywords =
        keywordHits (pyLower text) (lookupTable red_flags "location_blast") ∧
      (detect_location_blast text).cities_mentioned = countCities text ∧
      (detect_location_blast "Chicago Denver Boston Seattle Miami").is_location_blast
        = true ∧
      (detect_location_blast "Chicago Denver Boston Seattle Miami").blast_keywords
        = 0 ∧
      (detect_location_blast "Chicago Denver Boston Seattle Miami").cities_mentioned
        = 5 ∧
      (detect_location_blast "nationwide").is_location_blast = true ∧
      (detect_location_blast "nationwide").cities_mentioned = 0 ∧
      (detect_location_blast "nationwide").blast_keywords = 1 := by
  intro text
  exact ⟨rfl, rfl, rfl, by decide, by decide, by decide, by decide, by decide,
    by decide⟩

/-- C9: on the empty text with no posted date the classifier returns the
Pipeline/Evergreen label with Medium confidence: the missing requisition ID
makes the requisition analysis suspicious, so the final passive score is 3
against a final active score of 0, and 2·3 > 3·0 with 3 < 8. -/
theorem empty_text_classification :
    (analyze_hiring_type "" none 0).hiring_type = passiveLabel ∧
    (analyze_hiring_type "" none 0).confidence = "Medium" ∧
    (analyze_hiring_type "" none 0).active_score = 0 ∧
    (analyze_hiring_type "" none 0).passive_score = 3 ∧
    (analyze_hiring_type "" none 0).requisition_analysis.has_req_id = false ∧
    (analyze_hiring_type "" none 0).requisition_analysis.is_suspicious = true := by
  exact ⟨by decide, by decide, by decide, by decide, by decide, by decide⟩

end HiringDetector

namespace HiringDetector

/-- C1: the weighted final scores are: final active = 2 × raw active
keyword-hit sum, + 3 if the specificity analysis is specific, + 2 if the
requisition analysis is not suspicious; final passive = 2 × raw passive
keyword-hit sum, + 3 if the requisition analysis is suspicious, + 3 if a
location blast is detected, + the raw red-flag keyword-hit sum, + 2 if the
posting is stale. -/
theorem final_scores_weighted :
    ∀ (text : String) (posted : Option String) (today : Nat),
      (analyze_hiring_type text posted today).active_score =
        2 * sumCounts (count_indicators text active_indicators) +
          (if (analyze_specificity text).is_specific then 3 else 0) +
          (if (analyze_req_id (extract_requisition_id text)).is_suspicious then 0
           else 2) ∧
      (analyze_hiring_type text posted today).passive_score =
        2 * sumCounts (count_indicators text passive_indicators) +
          (if (analyze_req_id (extract_requisition_id text)).is_suspicious then 3
           else 0) +
          (if (detect_location_blast text).is_location_blast then 3 else 0) +
          sumCounts (count_indicators text red_flags) +
          (if (analyze_hiring_type text posted today).is_stale then 2 else 0) := by
  intro text posted today
  dsimp only [analyze_hiring_type]
  cases hsusp : (analyze_req_id (extract_requisition_id text)).is_suspicious <;>
    simp [hsusp, Nat.mul_comm]

/-- C2: the label is decided by ordered conditionals — Active Hiring when
2·final_active > 3·final_passive (the exact form of the float comparison
`final_active > final_passive * 1.5`), with confidence High iff the winning
score is at least 8, else Medium; then Pipeline/Evergreen symmetrically;
otherwise Mixed Signals with confidence Low.  Equal final scores yield Mixed
Signals, and High confidence occurs only with a winning score of at least 8. -/
theorem label_decision :
    ∀ (text : String) (posted : Option String) (today : Nat),
      (3 * (analyze_hiring_type text posted today).passive_score <
          2 * (analyze_hiring_type text posted today).active_score →
        (analyze_hiring_type text posted today).hiring_type = activeLabel ∧
        (analyze_hiring_type text posted today).confidence =
          (if 8 ≤ (analyze_hiring_type text posted today).active_score then "High"
           else "Medium")) ∧
      (¬ 3 * (analyze_hiring_type text posted today).passive_score <
          2 * (analyze_hiring_type text posted today).active_score →
        3 * (analyze_hiring_type text posted today).active_score <
          2 * (analyze_hiring_type text posted today).passive_score →
        (analyze_hiring_type text posted today).hiring_type = passiveLabel ∧
        (analyze_hiring_type text posted today).confidence =
          (if 8 ≤ (analyze_hiring_type text posted today).passive_score then "High"
           else "Medium")) ∧
      (¬ 3 * (analyze_hiring_type text posted today).passive_score <
          2 * (analyze_hiring_type text posted today).active_score →
        ¬ 3 * (analyze_hiring_type text posted today).active_score <
          2 * (analyze_hiring_type text posted today).passive_score →
        (analyze_hiring_type text posted today).hiring_type = mixedLabel ∧
        (analyze_hiring_type text posted today).confidence = "Low") ∧
      ((analyze_hiring_type text posted today).active_score =
          (analyze_hiring_type text posted today).passive_score →
        (analyze_hiring_type text posted today).hiring_type = mixedLabel ∧
        (analyze_hiring_type text posted today).confidence = "Low") ∧
      ((analyze_hiring_type text posted today).confidence = "High" →
        ((analyze_hiring_type text posted today).hiring_type = activeLabel ∧
          8 ≤ (analyze_hiring_type text posted today).active_score) ∨
        ((analyze_hiring_type text posted today).hiring_type = passiveLabel ∧
          8 ≤ (analyze_hiring_type text posted today).passive_score)) := by
  intro text posted today
  have t1 : 3 * (analyze_hiring_type text posted today).passive_score <
      2 * (analyze_hiring_type text posted today).active_score →
      (analyze_hiring_type text posted today).hiring_type = activeLabel ∧
      (analyze_hiring_type text posted today).confidence =
        (if 8 ≤ (analyze_hiring_type text posted today).active_score then "High"
         else "Medium") := by
    dsimp only [analyze_hiring_type]
    intro h
    rw [if_pos h]
    exact ⟨rfl, rfl⟩
  have t2 : ¬ 3 * (analyze_hiring_type text posted today).passive_score <
      2 * (analyze_hiring_type text posted today).active_score →
      3 * (analyze_hiring_type text posted today).active_score <
        2 * (analyze_hiring_type text posted today).passive_score →
      (analyze_hiring_type text posted today).hiring_type = passiveLabel ∧
      (analyze_hiring_type text posted today).confidence =
        (if 8 ≤ (analyze_hiring_type text posted today).passive_score then "High"
         else "Medium") := by
    dsimp only [analyze_hiring_type]
    intro h1 h2
    rw [if_neg h1, if_pos h2]
    exact ⟨rfl, rfl⟩
  have t3 : ¬ 3 * (analyze_hiring_type text posted today).passive_score <
      2 * (analyze_hiring_type text posted today).active_score →
      ¬ 3 * (analyze_hiring_type text posted today).active_score <
        2 * (analyze_hiring_type text posted today).passive_score →
      (analyze_hiring_type text posted today).hiring_type = mixedLabel ∧
      (analyze_hiring_type text posted today).confidence = "Low" := by
    dsimp only [analyze_hiring_type]
    intro h1 h2
    rw [if_neg h1, if_neg h2]
    exact ⟨rfl, rfl⟩
  refine ⟨t1, t2, t3, ?_, ?_⟩
  · intro hEq
    exact t3 (by omega) (by omega)
  · intro hH
    by_cases h1 : 3 * (analyze_hiring_type text posted today).passive_score <
        2 * (analyze_hiring_type text posted today).active_score
    · obtain ⟨hty, hconf⟩ := t1 h1
      rw [hconf] at hH
      by_cases h8 : 8 ≤ (analyze_hiring_type text posted today).active_score
      · exact Or.inl ⟨hty, h8⟩
      · rw [if_neg h8] at hH
        exact absurd hH (by decide)
    · by_cases h2 : 3 * (analyze_hiring_type text posted today).active_score <
          2 * (analyze_hiring_type text posted today).passive_score
      · obtain ⟨hty, hconf⟩ := t2 h1 h2
        rw [hconf] at hH
        by_cases h8 : 8 ≤ (analyze_hiring_type text posted today).passive_score
        · exact Or.inr ⟨hty, h8⟩
        · rw [if_neg h8] at hH
          exact absurd hH (by decide)
      · obtain ⟨hty, hconf⟩ := t3 h1 h2
        rw [hconf] at hH
        exact absurd hH (by decide)

end HiringDetector

namespace HiringDetector

/-- C5: when the posted date parses, `posting_age_days` is the whole-day age
of the posting versus the current date, and `is_stale` holds exactly when
that age strictly exceeds 45 days. -/
theorem staleness_boundary :
    ∀ (text s : String) (dt : PyDate) (today : Nat),
      s.isEmpty = false →
      fromisoformat (pyReplace s "Z" "+00:00") = some dt →
      (analyze_hiring_type text (some s) today).posting_age_days =
        some ((today : Int) - (toOrdinal dt : Int)) ∧
      (analyze_hiring_type text (some s) today).is_stale =
        decide ((45 : Int) < (today : Int) - (toOrdinal dt : Int)) := by
  intro text s dt today hne hparse
  dsimp only [analyze_hiring_type]
  simp only [hne, hparse]
  exact ⟨rfl, rfl⟩

/-- C5 witness: for the date 2024-01-15, an evaluation date exactly 46 days
later is stale and one exactly 45 days later is not. -/
theorem staleness_boundary_witness :
    ("2024-01-15" : String).isEmpty = false ∧
    fromisoformat (pyReplace "2024-01-15" "Z" "+00:00") =
      some ⟨2024, 1, 15⟩ ∧
    (analyze_hiring_type "" (some "2024-01-15")
        (toOrdinal ⟨2024, 1, 15⟩ + 46)).is_stale = true ∧
    (analyze_hiring_type "" (some "2024-01-15")
        (toOrdinal ⟨2024, 1, 15⟩ + 45)).is_stale = false := by
  refine ⟨by decide, by decide, ?_, ?_⟩
  · have h := staleness_boundary "" "2024-01-15" ⟨2024, 1, 15⟩
      (toOrdinal ⟨2024, 1, 15⟩ + 46) (by decide) (by decide)
    rw [h.2]
    decide
  · have h := staleness_boundary "" "2024-01-15" ⟨2024, 1, 15⟩
      (toOrdinal ⟨2024, 1, 15⟩ + 45) (by decide) (by decide)
    rw [h.2]
    decide

/-- C6: the classifier is total — every input yields a complete analysis
whose label and confidence are among the fixed variants — and a supplied
posted date that fails to parse is silently swallowed: `posting_age_days`
stays absent and `is_stale` stays false. -/
theorem classify_total_and_date_failure :
    ∀ (text : String) (posted : Option String) (today : Nat),
      ((analyze_hiring_type text posted today).hiring_type = activeLabel ∨
        (analyze_hiring_type text posted today).hiring_type = passiveLabel ∨
        (analyze_hiring_type text posted today).hiring_type = mixedLabel) ∧
      ((analyze_hiring_type text posted today).confidence = "High" ∨
        (analyze_hiring_type text posted today).confidence = "Medium" ∨
        (analyze_hiring_type text posted today).confidence = "Low") ∧
      (∀ s : String, posted = some s →
        fromisoformat (pyReplace s "Z" "+00:00") = none →
        (analyze_hiring_type text posted today).posting_age_days = none ∧
        (analyze_hiring_type text posted today).is_stale = false) := by
  intro text posted today
  refine ⟨?_, ?_, ?_⟩
  · by_cases h1 : 3 * (analyze_hiring_type text posted today).passive_score <
        2 * (analyze_hiring_type text posted today).active_score
    · dsimp only [analyze_hiring_type] at h1 ⊢
      rw [if_pos h1]
      exact Or.inl rfl
    · by_cases h2 : 3 * (analyze_hiring_type text posted today).active_score <
          2 * (analyze_hiring_type text posted today).passive_score
      · dsimp only [analyze_hiring_type] at h1 h2 ⊢
        rw [if_neg h1, if_pos h2]
        exact Or.inr (Or.inl rfl)
      · dsimp only [analyze_hiring_type] at h1 h2 ⊢
        rw [if_neg h1, if_neg h2]
        exact Or.inr (Or.inr rfl)
  · by_cases h1 : 3 * (analyze_hiring_type text posted today).passive_score <
        2 * (analyze_hiring_type text posted today).active_score
    · by_cases h8 : 8 ≤ (analyze_hiring_type text posted today).active_score
      · dsimp only [analyze_hiring_type] at h1 h8 ⊢
        rw [if_pos h1]
        dsimp only
        rw [if_pos h8]
        exact Or.inl rfl
      · dsimp only [analyze_hiring_type] at h1 h8 ⊢
        rw [if_pos h1]
        dsimp only
        rw [if_neg h8]
        exact Or.inr (Or.inl rfl)
    · by_cases h2 : 3 * (analyze_hiring_type text posted today).active_score <
          2 * (analyze_hiring_type text posted today).passive_score
      · by_cases h8 : 8 ≤ (analyze_hiring_type text posted today).passive_score
        · dsimp only [analyze_hiring_type] at h1 h2 h8 ⊢
          rw [if_neg h1, if_pos h2]
          dsimp only
          rw [if_pos h8]
          exact Or.inl rfl
        · dsimp only [analyze_hiring_type] at h1 h2 h8 ⊢
          rw [if_neg h1, if_pos h2]
          dsimp only
          rw [if_neg h8]
          exact Or.inr (Or.inl rfl)
      · dsimp only [analyze_hiring_type] at h1 h2 ⊢
        rw [if_neg h1, if_neg h2]
        exact Or.inr (Or.inr rfl)
  · intro s hs hparse
    subst hs
    dsimp only [analyze_hiring_type]
    by_cases hne : s.isEmpty
    · simp [hne]
    · simp [hne, hparse]

/-- C6 witness: the malformed date "not-a-date" fails to parse and is
swallowed — the empty-text classification still carries a valid label while
the age fields stay absent. -/
theorem classify_total_and_date_failure_witness :
    fromisoformat (pyReplace "not-a-date" "Z" "+00:00") = none ∧
    (analyze_hiring_type "" (some "not-a-date") 0).posting_age_days = none ∧
    (analyze_hiring_type "" (some "not-a-date") 0).is_stale = false ∧
    ((analyze_hiring_type "" (some "not-a-date") 0).hiring_type = activeLabel ∨
      (analyze_hiring_type "" (some "not-a-date") 0).hiring_type = passiveLabel ∨
      (analyze_hiring_type "" (some "not-a-date") 0).hiring_type = mixedLabel) := by
  have h := classify_total_and_date_failure "" (some "not-a-date") 0
  exact ⟨by decide, (h.2.2 "not-a-date" rfl (by decide)).1,
    (h.2.2 "not-a-date" rfl (by decide)).2, h.1⟩

end HiringDetector

namespace HiringDetector

/-- The fold underlying `maxBySnd` never drops below its seed. -/
theorem maxBySnd_foldl_ge (xs : List (String × Nat)) :
    ∀ x : String × Nat,
      x.2 ≤ (xs.foldl (fun acc y => if acc.2 < y.2 then y else acc) x).2 := by
  induction xs with
  | nil => intro x; exact le_refl _
  | cons a t ih =>
    intro x
    simp only [List.foldl_cons]
    by_cases h : x.2 < a.2
    · rw [if_pos h]
      exact le_trans (le_of_lt h) (ih a)
    · rw [if_neg h]
      exact ih x

/-- A positive category-count sum forces a positive maximum count. -/
theorem maxBySnd_pos (l : List (String × Nat)) (h : 0 < sumCounts l) :
    0 < (maxBySnd l).2 := by
  cases l with
  | nil => simp [sumCounts] at h
  | cons a t =>
    simp only [sumCounts, List.map_cons, List.sum_cons] at h
    induction t generalizing a with
    | nil =>
      simp only [List.map_nil, List.sum_nil, Nat.add_zero] at h
      simpa [maxBySnd] using h
    | cons b t2 ih =>
      simp only [maxBySnd, List.foldl_cons]
      by_cases hab : a.2 < b.2
      · rw [if_pos hab]
        have hb : 0 < b.2 + (t2.map Prod.snd).sum := by omega
        have := ih b hb
        simpa [maxBySnd] using this
      · rw [if_neg hab]
        simp only [List.map_cons, List.sum_cons] at h
        have ha : 0 < a.2 + (t2.map Prod.snd).sum := by omega
        have := ih a ha
        simpa [maxBySnd] using this

/-- C8: the insights list is exactly the fixed-order concatenation of seven
conditional blocks — active count plus strongest-active line, passive count
plus strongest-passive line, red-flag count, suspicious-requisition reason,
location-blast reason, low-specificity warning, staleness line — each
contributed only when its condition holds, with each strongest line naming
the first maximal category in table-declaration order (`maxBySnd`); in
particular, when both raw sums are positive the list starts with the active
summary lines followed by the passive summary lines, regardless of their
relative magnitudes. -/
theorem insight_order :
    ∀ (text : String) (posted : Option String) (today : Nat),
      (analyze_hiring_type text posted today).insights =
        (if 0 < sumCounts (count_indicators text active_indicators) then
          [activeCountLine (sumCounts (count_indicators text active_indicators))] ++
            (if 0 < (maxBySnd (count_indicators text active_indicators)).2 then
              [strongestLine (maxBySnd (count_indicators text active_indicators))]
             else [])
         else []) ++
        (if 0 < sumCounts (count_indicators text passive_indicators) then
          [passiveCountLine (sumCounts (count_indicators text passive_indicators))] ++
            (if 0 < (maxBySnd (count_indicators text passive_indicators)).2 then
              [strongestLine (maxBySnd (count_indicators text passive_indicators))]
             else [])
         else []) ++
        (if 0 < sumCounts (count_indicators text red_flags) then
          [redFlagCountLine (sumCounts (count_indicators text red_flags))]
         else []) ++
        (if (analyze_req_id (extract_requisition_id text)).is_suspicious then
          [flagLine (analyze_req_id (extract_requisition_id text)).reason]
         else []) ++
        (if (detect_location_blast text).is_location_blast then
          [flagLine (detect_location_blast text).reason] else []) ++
        (if !(analyze_specificity text).is_specific then [lowSpecificityLine]
         else []) ++
        (if (analyze_hiring_type text posted today).is_stale then
          [staleInsight
            ((analyze_hiring_type text posted today).posting_age_days.getD 0)]
         else []) ∧
      (0 < sumCounts (count_indicators text active_indicators) →
        0 < sumCounts (count_indicators text passive_indicators) →
        (analyze_hiring_type text posted today).insights.take 4 =
          [activeCountLine (sumCounts (count_indicators text active_indicators)),
           strongestLine (maxBySnd (count_indicators text active_indicators)),
           passiveCountLine (sumCounts (count_indicators text passive_indicators)),
           strongestLine (maxBySnd (count_indicators text passive_indicators))]) := by
  intro text posted today
  refine ⟨rfl, ?_⟩
  intro ha hp
  have hta := maxBySnd_pos _ ha
  have htp := maxBySnd_pos _ hp
  dsimp only [analyze_hiring_type]
  rw [if_pos ha, if_pos hp, if_pos hta, if_pos htp]
  simp [List.append_assoc]

/-- C8 witness: a text with one active and one passive signal opens its
insights with the four summary lines, active before passive. -/
theorem insight_order_witness :
    0 < sumCounts (count_indicators "open role talent pool" active_indicators) ∧
    0 < sumCounts (count_indicators "open role talent pool" passive_indicators) ∧
    (analyze_hiring_type "open role talent pool" none 0).insights.take 4 =
      ["✅ 1 active hiring signals detected",
       "   → Strongest: vacancy (1 mentions)",
       "⚠️ 1 pipeline/evergreen signals detected",
       "   → Strongest: pipeline (1 mentions)"] := by
  refine ⟨by decide, by decide, ?_⟩
  have h := (insight_order "open role talent pool" none 0).2 (by decide) (by decide)
  rw [h]
  decide

/-- C2 witness: the text "talent pool" selects the Pipeline/Evergreen branch
(0 final active vs 5 final passive) with Medium confidence. -/
theorem label_decision_witness :
    ¬ 3 * (analyze_hiring_type "talent pool" none 0).passive_score <
        2 * (analyze_hiring_type "talent pool" none 0).active_score ∧
    3 * (analyze_hiring_type "talent pool" none 0).active_score <
        2 * (analyze_hiring_type "talent pool" none 0).passive_score ∧
    (analyze_hiring_type "talent pool" none 0).hiring_type = passiveLabel ∧
    (analyze_hiring_type "talent pool" none 0).confidence = "Medium" := by
  refine ⟨by decide, by decide, ?_, ?_⟩
  · exact ((label_decision "talent pool" none 0).2.1 (by decide) (by decide)).1
  · have h := ((label_decision "talent pool" none 0).2.1 (by decide) (by decide)).2
    rw [h]
    decide

/-- C3 witness: the specific ID "REQ-2024-ML-1847" (length over 4, no
evergreen term) is classified as not suspicious. -/
theorem req_id_rules_witness :
    ("REQ-2024-ML-1847" : String).isEmpty = false ∧
    evergreen_terms.any
      (fun term => strIn term (pyUpper "REQ-2024-ML-1847")) = false ∧
    (analyze_req_id (some "REQ-2024-ML-1847")).is_suspicious = false := by
  refine ⟨by decide, by decide, ?_⟩
  exact ((req_id_rules "REQ-2024-ML-1847" (by decide)).2.2.2.1 (by decide)
    (by decide)).1

end HiringDetector

namespace ResumeParser

/-- A resume with contact info, five skills, education, and an experience
keyword reaches the 70-point threshold of the linear rubric. -/
theorem ats_score_lower_bound (pd : ParsedData)
    (he : truthy pd.email = true) (hph : truthy pd.phone = true)
    (hsk : 5 ≤ pd.skills.length) (hed : 0 < pd.education.length)
    (hex : strIn "experience" (pyLower pd.raw_text) = true ∨
      strIn "worked" (pyLower pd.raw_text) = true) :
    70 ≤ calculate_ats_score pd := by
  have hfk : 1 ≤ foundKeywords (pyLower pd.raw_text) := by
    dsimp only [foundKeywords, experience_keywords]
    rcases hex with h | h <;> (simp [h]; try omega)
  dsimp only [calculate_ats_score]
  rw [if_pos he, if_pos hph, if_pos hed]
  split_ifs <;> omega

/-- C10: the suggestions list is never empty — a score of at least 70 always
appends a fixed suggestion, and below 70 at least one deficiency suggestion
must fire, since email, phone, five skills, education and an experience
keyword together already reach 70 points. -/
theorem suggestions_nonempty :
    ∀ pd : ParsedData,
      0 < (generate_suggestions pd (calculate_ats_score pd)).length := by
  intro pd
  by_cases h70 : calculate_ats_score pd < 70
  · have hmid : ¬(70 ≤ calculate_ats_score pd ∧ calculate_ats_score pd < 85) := by
      omega
    have hlast : ¬ 85 ≤ calculate_ats_score pd := by omega
    dsimp only [generate_suggestions]
    rw [if_pos h70, if_neg hmid, if_neg hlast]
    by_cases he : truthy pd.email = true
    · by_cases hph : truthy pd.phone = true
      · by_cases hsk : pd.skills.length < 5
        · simp [he, hph, hsk]
        · by_cases hed : pd.education.length = 0
          · simp [hed]
          · by_cases hex : (!strIn "experience" (pyLower pd.raw_text) &&
                !strIn "worked" (pyLower pd.raw_text)) = true
            · simp [hex]
            · exfalso
              have hx := hex
              simp only [Bool.and_eq_true, Bool.not_eq_true'] at hx
              have hor : strIn "experience" (pyLower pd.raw_text) = true ∨
                  strIn "worked" (pyLower pd.raw_text) = true := by
                cases h1 : strIn "experience" (pyLower pd.raw_text) with
                | true => exact Or.inl rfl
                | false =>
                  cases h2 : strIn "worked" (pyLower pd.raw_text) with
                  | true => exact Or.inr rfl
                  | false => exact absurd ⟨h1, h2⟩ hx
              have := ats_score_lower_bound pd he hph (by omega) (by omega) hor
              omega
      · simp [hph]
    · simp [he]
  · dsimp only [generate_suggestions]
    have h85or : 85 ≤ calculate_ats_score pd ∨
        (70 ≤ calculate_ats_score pd ∧ calculate_ats_score pd < 85) := by omega
    rw [if_neg h70]
    rcases h85or with h85 | h78
    · rw [if_neg (fun hc => by omega), if_pos h85]
      simp
    · rw [if_pos h78, if_neg (by omega)]
      simp

end ResumeParser
